import Mathlib

/-!
Shallow embedding of the payment-lifecycle subsystem of the
`alx_travel_app` repository (files `listings/services.py`,
`alx_travel_app/listings/models.py` and `alx_travel_app/listings/tasks.py`).

Conventions of the embedding:

* Payment statuses are the literal strings the Django model stores
  (`"pending"`, `"processing"`, `"completed"`, `"failed"`, `"cancelled"`).
* `Decimal` amounts are modelled as `Int` in minor currency units; the
  arithmetic the code performs on amounts (`price_per_night * Decimal(nights)`)
  multiplies by an integer, so it is exact integer arithmetic.
* Python's `str.lower()` / `str.strip()` are modelled character-wise
  (`strLower`, `strTrim`), which agrees with them on all ASCII input.
* Dates (`Booking.start_date` / `end_date`) are day numbers (`Int`), so the
  Python `(end_date - start_date).days` becomes integer subtraction.
* `created_at` timestamps are hours (`Int`), so the 24-hour cutoff of
  `cleanup_expired_payments` is the integer `now - 24`.
* Each network call to the Chapa gateway is passed in explicitly as the
  response the gateway produced for that call.  `verify_payment_status`
  performs two consecutive gateway calls (one directly, one inside
  `get_payment_status`), so it takes two responses `r1`, `r2`.
* Stateful methods return the updated `Payment` next to the result
  dictionary they build; Celery `.delay` enqueues are returned as the list
  of task names enqueued.
-/

/-- Python's `str.lower()`, character by character (kernel-reducible;
agrees with `str.lower()` on ASCII). -/
def strLower (s : String) : String :=
  ⟨s.data.map Char.toLower⟩

/-- Python's `str.strip()`: drop whitespace from both ends
(kernel-reducible; agrees with `str.strip()` on ASCII). -/
def strTrim (s : String) : String :=
  ⟨((s.data.dropWhile Char.isWhitespace).reverse.dropWhile
      Char.isWhitespace).reverse⟩

/-- A row of the `Listing` model (only the field the payment code reads). -/
structure Listing where
  price_per_night : Int
  deriving Repr, DecidableEq

/-- A row of the `Booking` model (fields read by the payment code). -/
structure Booking where
  id : Nat
  start_date : Int
  end_date : Int
  listing : Listing
  deriving Repr, DecidableEq

/-- The Django `User` fields read by `create_payment_for_booking`. -/
structure User where
  username : String
  email : String
  first_name : String
  last_name : String
  deriving Repr, DecidableEq

/-- A row of the `Payment` model (the columns the payment lifecycle code
touches; audit-only columns such as `payment_method`, `transaction_id` and
`customer_phone` are omitted because no modelled operation reads or writes
them). -/
structure Payment where
  booking_id : Nat
  reference : String
  amount : Int
  currency : String
  status : String
  chapa_transaction_ref : Option String
  checkout_url : Option String
  customer_email : String
  customer_name : String
  created_at : Int
  deriving Repr, DecidableEq

/-- The tagged dictionary `ChapaService.verify_payment` returns: `success`
is the tag; `status`, `amount`, `currency` carry the gateway's `data`
fields (meaningful only when `success = true`, exactly as in the Python
dict where the failure branch simply lacks them). -/
structure ChapaVerifyResponse where
  success : Bool
  status : String
  amount : Int
  currency : String
  deriving Repr, DecidableEq

/-- The tagged dictionary `ChapaService.initialize_payment` returns. -/
structure ChapaInitResponse where
  success : Bool
  checkout_url : Option String
  transaction_ref : Option String
  deriving Repr, DecidableEq

/-- Result dictionary of `PaymentService.initiate_payment`. -/
structure InitiateResult where
  success : Bool
  checkout_url : Option String
  reference : String
  deriving Repr, DecidableEq

/-- Result dictionary of `PaymentService.verify_payment_status`: the
failure branches carry no `status`/`amount`/`currency` keys, hence the
`Option`s. -/
structure VerifyStatusResult where
  success : Bool
  status : Option String
  amount : Option Int
  currency : Option String
  deriving Repr, DecidableEq

/-- The `status_mapping` dict literal inside
`ChapaService.get_payment_status`. -/
def status_mapping : List (String × String) :=
  [("success", "completed"),
   ("pending", "pending"),
   ("failed", "failed"),
   ("cancelled", "cancelled")]

/-- `status_mapping.get(chapa_status, 'pending')`: the dict lookup with
default `"pending"`. -/
def normalize_status (chapa_status : String) : String :=
  (status_mapping.lookup chapa_status).getD "pending"

/-- `ChapaService.get_payment_status`, given the response of the
`verify_payment` call it performs: on gateway success it lowercases the
remote status and maps it through `status_mapping` (default `"pending"`);
on gateway failure it returns `"failed"`. -/
def get_payment_status (verification_result : ChapaVerifyResponse) : String :=
  if verification_result.success then
    normalize_status (strLower verification_result.status)
  else
    "failed"

/-- Python truthiness of `payment.chapa_transaction_ref`: `None` and the
empty string are falsy (`if not payment.chapa_transaction_ref`). -/
def refIsSet : Option String → Bool
  | none => false
  | some s => !(s == "")

/-- `PaymentService.create_payment_for_booking`.  `nights` is
`(end_date - start_date).days`; the amount is
`price_per_night * Decimal(nights)`; the customer name is
`f"{first} {last}".strip() or username`.  The `reference` (a fresh
`uuid4`) and the `created_at` auto-timestamp are supplied by the runtime
and passed in as parameters. -/
def create_payment_for_booking (booking : Booking) (user : User)
    (reference : String) (now : Int) : Payment :=
  let nights : Int := booking.end_date - booking.start_date
  let total_amount : Int := booking.listing.price_per_night * nights
  let stripped := strTrim (user.first_name ++ " " ++ user.last_name)
  { booking_id := booking.id
    reference := reference
    amount := total_amount
    currency := "ETB"
    status := "pending"
    chapa_transaction_ref := none
    checkout_url := none
    customer_email := user.email
    customer_name := if stripped = "" then user.username else stripped
    created_at := now }

/-- `PaymentService.initiate_payment`, given the response of the
`initialize_payment` gateway call: on success it stores the gateway's
transaction reference and checkout URL and moves the payment to
`"processing"`; on failure it moves the payment to `"failed"`. -/
def initiate_payment (payment : Payment) (result : ChapaInitResponse) :
    Payment × InitiateResult :=
  if result.success then
    let payment' := { payment with
      chapa_transaction_ref := result.transaction_ref
      checkout_url := result.checkout_url
      status := "processing" }
    (payment', { success := true
                 checkout_url := result.checkout_url
                 reference := payment.reference })
  else
    ({ payment with status := "failed" },
     { success := false, checkout_url := none, reference := payment.reference })

/-- `PaymentService.verify_payment_status`, given the responses `r1` (to
the `verify_payment` call it makes directly) and `r2` (to the
`verify_payment` call made inside `get_payment_status`).  With no usable
transaction reference it returns an error; if `r1` fails it returns an
error and leaves the payment untouched; if `r1` succeeds it persists
`get_payment_status r2` as the new status unconditionally. -/
def verify_payment_status (payment : Payment)
    (r1 r2 : ChapaVerifyResponse) : Payment × VerifyStatusResult :=
  if refIsSet payment.chapa_transaction_ref = false then
    (payment, { success := false, status := none, amount := none, currency := none })
  else if r1.success then
    let new_status := get_payment_status r2
    ({ payment with status := new_status },
     { success := true
       status := some new_status
       amount := some r1.amount
       currency := some r1.currency })
  else
    (payment, { success := false, status := none, amount := none, currency := none })

/-- The Celery task `update_payment_status` of
`alx_travel_app/listings/tasks.py`: it runs `verify_payment_status` and,
when that reports success, enqueues `send_payment_confirmation_email` if
the reported status is `"completed"` and `send_payment_failed_email` if it
is `"failed"`.  The second component is the list of task names enqueued. -/
def update_payment_status (payment : Payment)
    (r1 r2 : ChapaVerifyResponse) : Payment × List String :=
  let step := verify_payment_status payment r1 r2
  if step.2.success then
    if step.2.status = some "completed" then
      (step.1, ["send_payment_confirmation_email"])
    else if step.2.status = some "failed" then
      (step.1, ["send_payment_failed_email"])
    else
      (step.1, [])
  else
    (step.1, [])

/-- The per-row effect of the bulk
`expired_payments.update(status='failed')` in `cleanup_expired_payments`:
a row matches the queryset filter iff it is `"pending"` and strictly older
than the cutoff. -/
def expireUpdate (cutoff_time : Int) (p : Payment) : Payment :=
  if p.status = "pending" ∧ p.created_at < cutoff_time then
    { p with status := "failed" }
  else
    p

/-- The Celery task `cleanup_expired_payments`: with
`cutoff_time = now - 24` (hours), every `"pending"` payment created before
the cutoff is set to `"failed"`; all other rows are untouched. -/
def cleanup_expired_payments (now : Int) (payments : List Payment) :
    List Payment :=
  let cutoff_time := now - 24
  payments.map (expireUpdate cutoff_time)

/-! ### Concrete fixtures used by counterexamples and witnesses -/

/-- A payment that has completed: terminal status, gateway reference set. -/
def completedPayment : Payment :=
  { booking_id := 1
    reference := "PAY-1"
    amount := 300
    currency := "ETB"
    status := "completed"
    chapa_transaction_ref := some "chapa-1"
    checkout_url := some "https://example.test/co1"
    customer_email := "ada@example.test"
    customer_name := "Ada Lovelace"
    created_at := 0 }

/-- A payment still in `"processing"`, awaiting gateway confirmation. -/
def processingPayment : Payment :=
  { completedPayment with
    reference := "PAY-2"
    status := "processing"
    chapa_transaction_ref := some "chapa-2" }

/-- A successful gateway verify response reporting remote status `"pending"`. -/
def pendingReport : ChapaVerifyResponse :=
  { success := true, status := "pending", amount := 300, currency := "ETB" }

/-- A successful gateway verify response reporting remote status `"success"`. -/
def successReport : ChapaVerifyResponse :=
  { success := true, status := "success", amount := 300, currency := "ETB" }

/-- A failed gateway verify call (transport error). -/
def failedReport : ChapaVerifyResponse :=
  { success := false, status := "", amount := 0, currency := "" }

/-! ### Shared lemmas about `verify_payment_status` -/

/-- When the payment has a usable transaction reference and the first
gateway call succeeds, `verify_payment_status` persists
`get_payment_status r2` and reports success. -/
theorem verify_status_eq (p : Payment) (r1 r2 : ChapaVerifyResponse)
    (href : refIsSet p.chapa_transaction_ref = true) (h1 : r1.success = true) :
    verify_payment_status p r1 r2 =
      ({ p with status := get_payment_status r2 },
       { success := true
         status := some (get_payment_status r2)
         amount := some r1.amount
         currency := some r1.currency }) := by
  unfold verify_payment_status
  simp [href, h1]

/-- `verify_payment_status` never writes `chapa_transaction_ref`. -/
theorem verify_ref_eq (p : Payment) (r1 r2 : ChapaVerifyResponse) :
    (verify_payment_status p r1 r2).1.chapa_transaction_ref
      = p.chapa_transaction_ref := by
  unfold verify_payment_status
  by_cases href : refIsSet p.chapa_transaction_ref = false
  · simp [href]
  · by_cases h1 : r1.success <;> simp [href, h1]

/-! ### Claims -/

/-- C5: for every booking with `nights > 0` and listing price `p`,
`create_payment_for_booking` produces a Payment with
`amount = nights × p`, `status = "pending"`, and the payer's email and
display name snapshotted from the user at creation time. -/
theorem create_payment_amount_status_snapshot (b : Booking) (u : User)
    (reference : String) (now : Int) (h : b.start_date < b.end_date) :
    (create_payment_for_booking b u reference now).amount
        = (b.end_date - b.start_date) * b.listing.price_per_night ∧
    (create_payment_for_booking b u reference now).status = "pending" ∧
    (create_payment_for_booking b u reference now).customer_email = u.email ∧
    (create_payment_for_booking b u reference now).customer_name
        = (if strTrim (u.first_name ++ " " ++ u.last_name) = ""
           then u.username
           else strTrim (u.first_name ++ " " ++ u.last_name)) := by
  unfold create_payment_for_booking
  exact ⟨mul_comm _ _, rfl, rfl, rfl⟩

/-- C5 witness: a 3-night booking at 100 per night for a named user. -/
theorem create_payment_amount_status_snapshot_witness :
    (create_payment_for_booking
        { id := 9, start_date := 10, end_date := 13,
          listing := { price_per_night := 100 } }
        { username := "ada", email := "ada@example.test",
          first_name := "Ada", last_name := "Lovelace" }
        "PAY-W5" 0).amount = 300 := by
  have h := create_payment_amount_status_snapshot
    { id := 9, start_date := 10, end_date := 13,
      listing := { price_per_night := 100 } }
    { username := "ada", email := "ada@example.test",
      first_name := "Ada", last_name := "Lovelace" }
    "PAY-W5" 0 (by decide)
  rw [h.1]
  decide

/-- C6: the `status_mapping` lookup sends the gateway vocabulary
`success`/`pending`/`failed`/`cancelled` to
`completed`/`pending`/`failed`/`cancelled` respectively, and every string
outside that vocabulary defaults to `"pending"` — never `"completed"`. -/
theorem normalize_status_vocabulary_and_default (s : String)
    (h1 : s ≠ "success") (h2 : s ≠ "pending")
    (h3 : s ≠ "failed") (h4 : s ≠ "cancelled") :
    normalize_status "success" = "completed" ∧
    normalize_status "pending" = "pending" ∧
    normalize_status "failed" = "failed" ∧
    normalize_status "cancelled" = "cancelled" ∧
    normalize_status s = "pending" ∧
    normalize_status s ≠ "completed" := by
  have hs : normalize_status s = "pending" := by
    have e1 : (s == "success") = false := beq_eq_false_iff_ne.mpr h1
    have e2 : (s == "pending") = false := beq_eq_false_iff_ne.mpr h2
    have e3 : (s == "failed") = false := beq_eq_false_iff_ne.mpr h3
    have e4 : (s == "cancelled") = false := beq_eq_false_iff_ne.mpr h4
    unfold normalize_status status_mapping
    simp [List.lookup, e1, e2, e3, e4]
  refine ⟨by decide, by decide, by decide, by decide, hs, ?_⟩
  rw [hs]
  decide

/-- C6 witness: the unknown remote status `"weird_status"`. -/
theorem normalize_status_vocabulary_and_default_witness :
    normalize_status "weird_status" = "pending" ∧
    normalize_status "weird_status" ≠ "completed" :=
  ⟨(normalize_status_vocabulary_and_default "weird_status"
      (by decide) (by decide) (by decide) (by decide)).2.2.2.2.1,
   (normalize_status_vocabulary_and_default "weird_status"
      (by decide) (by decide) (by decide) (by decide)).2.2.2.2.2⟩

/-- C9: when the gateway verify call made inside
`ChapaService.get_payment_status` fails, `get_payment_status` returns
`"failed"`; since `PaymentService.verify_payment_status` persists that
value after its own (first) verify call succeeded, the failure of the
second call writes status `"failed"` onto the Payment while the overall
result still reports success. -/
theorem second_verify_failure_writes_failed (p : Payment)
    (r1 r2 : ChapaVerifyResponse)
    (href : refIsSet p.chapa_transaction_ref = true)
    (h1 : r1.success = true) (h2 : r2.success = false) :
    get_payment_status r2 = "failed" ∧
    (verify_payment_status p r1 r2).1.status = "failed" ∧
    (verify_payment_status p r1 r2).2.success = true := by
  have hg : get_payment_status r2 = "failed" := by
    unfold get_payment_status
    simp [h2]
  rw [verify_status_eq p r1 r2 href h1]
  exact ⟨hg, hg, rfl⟩

/-- C9 witness: a processing payment whose first gateway call succeeds and
whose second gateway call fails. -/
theorem second_verify_failure_writes_failed_witness :
    (verify_payment_status processingPayment successReport failedReport).1.status
        = "failed" ∧
    (verify_payment_status processingPayment successReport failedReport).2.success
        = true :=
  ⟨(second_verify_failure_writes_failed processingPayment successReport
      failedReport (by decide) (by decide) (by decide)).2.1,
   (second_verify_failure_writes_failed processingPayment successReport
      failedReport (by decide) (by decide) (by decide)).2.2⟩

/-- C10: `ChapaService.get_payment_status` lowercases the remote status
before the `status_mapping` lookup, so on a successful gateway response
the result is exactly `normalize_status` applied to the lowercased remote
status; in particular `"SUCCESS"` normalizes to `"completed"` even though
the raw string `"SUCCESS"` is not a key of the mapping. -/
theorem get_payment_status_case_insensitive (r : ChapaVerifyResponse)
    (h : r.success = true) :
    get_payment_status r = normalize_status (strLower r.status) ∧
    get_payment_status
        { success := true, status := "SUCCESS", amount := 300, currency := "ETB" }
        = "completed" ∧
    normalize_status "SUCCESS" = "pending" := by
  refine ⟨?_, by decide, by decide⟩
  unfold get_payment_status
  simp [h]

/-- C10 witness: a successful response carrying the uppercase status. -/
theorem get_payment_status_case_insensitive_witness :
    get_payment_status
        { success := true, status := "SUCCESS", amount := 300, currency := "ETB" }
        = "completed" :=
  (get_payment_status_case_insensitive
      { success := true, status := "SUCCESS", amount := 300, currency := "ETB" }
      (by decide)).2.1

/-- A booking whose stay has zero nights (`end_date = start_date`). -/
def zeroNightsBooking : Booking :=
  { id := 7
    start_date := 100
    end_date := 100
    listing := { price_per_night := 250 } }

/-- A user with both name fields set. -/
def sampleUser : User :=
  { username := "ada"
    email := "ada@example.test"
    first_name := "Ada"
    last_name := "Lovelace" }

/-- A failed gateway initialize call. -/
def failedInit : ChapaInitResponse :=
  { success := false, checkout_url := none, transaction_ref := none }

/-- A successful gateway initialize call returning a fresh reference. -/
def okInit : ChapaInitResponse :=
  { success := true
    checkout_url := some "https://example.test/co2"
    transaction_ref := some "chapa-NEW" }

/-- A pending payment created 25 hours before the sweep at time 0. -/
def stalePayment : Payment :=
  { completedPayment with
    reference := "PAY-OLD"
    status := "pending"
    chapa_transaction_ref := none
    created_at := -25 }

/-- A pending payment created 1 hour before the sweep at time 0. -/
def freshPayment : Payment :=
  { completedPayment with
    reference := "PAY-NEW"
    status := "pending"
    chapa_transaction_ref := none
    created_at := -1 }

/-- C1 counterexample: a `"completed"` payment on which the gateway
reports `"pending"` (both verify calls succeed): `verify_payment_status`
changes the stored status, so terminal-state monotonicity fails. -/
theorem verify_regresses_completed_counterexample :
    completedPayment.status = "completed" ∧
    (verify_payment_status completedPayment pendingReport pendingReport).1.status
        ≠ completedPayment.status := by
  decide

/-- C1 (amended): `verify_payment_status` has no terminal-state guard —
whenever the transaction reference is usable and the first gateway call
succeeds, it unconditionally persists the normalized remote status
`get_payment_status r2`, even on a payment already in `completed`,
`failed`, or `cancelled`; a terminal status thus survives a verify call
only when the gateway happens to report a status normalizing to it. -/
theorem verify_overwrites_terminal_status (p : Payment)
    (r1 r2 : ChapaVerifyResponse)
    (hterm : p.status = "completed" ∨ p.status = "failed" ∨ p.status = "cancelled")
    (href : refIsSet p.chapa_transaction_ref = true) (h1 : r1.success = true) :
    (verify_payment_status p r1 r2).1.status = get_payment_status r2 := by
  rw [verify_status_eq p r1 r2 href h1]

/-- C1 witness: the completed payment of the counterexample. -/
theorem verify_overwrites_terminal_status_witness :
    (verify_payment_status completedPayment pendingReport pendingReport).1.status
        = get_payment_status pendingReport :=
  verify_overwrites_terminal_status completedPayment pendingReport pendingReport
    (by decide) (by decide) (by decide)

/-- C2 counterexample: for a booking with `end_date = start_date` the code
raises no `InvalidBookingError` — `create_payment_for_booking` is total
and does create a Payment record, in `"pending"` with amount `0`. -/
theorem create_without_validation_counterexample :
    (create_payment_for_booking zeroNightsBooking sampleUser "PAY-C2" 0).status
        = "pending" ∧
    (create_payment_for_booking zeroNightsBooking sampleUser "PAY-C2" 0).amount
        = 0 := by
  decide

/-- C2 (amended): `create_payment_for_booking` performs no date-range
validation: for every booking with `end_date ≤ start_date` (and a
non-negative listing price) it still creates a Payment, in `"pending"`
with `amount = price_per_night × nights ≤ 0`; rejecting such bookings is
left to upstream callers. -/
theorem create_accepts_nonpositive_nights (b : Booking) (u : User)
    (reference : String) (now : Int)
    (hdates : b.end_date ≤ b.start_date)
    (hprice : 0 ≤ b.listing.price_per_night) :
    (create_payment_for_booking b u reference now).status = "pending" ∧
    (create_payment_for_booking b u reference now).amount ≤ 0 := by
  unfold create_payment_for_booking
  refine ⟨rfl, ?_⟩
  dsimp only
  nlinarith [hprice, hdates]

/-- C2 witness: the zero-night booking. -/
theorem create_accepts_nonpositive_nights_witness :
    (create_payment_for_booking zeroNightsBooking sampleUser "PAY-W2" 0).status
        = "pending" ∧
    (create_payment_for_booking zeroNightsBooking sampleUser "PAY-W2" 0).amount
        ≤ 0 :=
  create_accepts_nonpositive_nights zeroNightsBooking sampleUser "PAY-W2" 0
    (by decide) (by decide)

/-- Closed form of the `update_payment_status` task when the payment has a
usable reference and the first gateway call succeeds. -/
theorem update_payment_status_eq (p : Payment) (r1 r2 : ChapaVerifyResponse)
    (href : refIsSet p.chapa_transaction_ref = true) (h1 : r1.success = true) :
    update_payment_status p r1 r2 =
      ({ p with status := get_payment_status r2 },
       if get_payment_status r2 = "completed" then
         ["send_payment_confirmation_email"]
       else if get_payment_status r2 = "failed" then
         ["send_payment_failed_email"]
       else []) := by
  unfold update_payment_status
  rw [verify_status_eq p r1 r2 href h1]
  simp
  split_ifs <;> rfl

/-- C3 counterexample: running the `update_payment_status` task twice on a
payment whose gateway reports `"success"` both times enqueues the
completion notification on BOTH runs — the second observation of the
terminal status enqueues a duplicate, against the claim that it is
enqueued only on the first observed transition. -/
theorem duplicate_completion_enqueue_counterexample :
    (update_payment_status processingPayment successReport successReport).2
        = ["send_payment_confirmation_email"] ∧
    (update_payment_status
        (update_payment_status processingPayment successReport successReport).1
        successReport successReport).2
        = ["send_payment_confirmation_email"] := by
  decide

/-- C3 (amended): calling verify twice while the gateway reports the same
remote status both times does yield the same local status both times, but
the notification task is enqueued on EVERY run that observes a terminal
reported status — the second run enqueues exactly the same notifications
as the first, a duplicate rather than none. -/
theorem verify_idempotent_status_duplicate_enqueue (p : Payment)
    (r : ChapaVerifyResponse)
    (href : refIsSet p.chapa_transaction_ref = true) (h1 : r.success = true) :
    (update_payment_status p r r).1.status = get_payment_status r ∧
    (update_payment_status (update_payment_status p r r).1 r r).1.status
        = (update_payment_status p r r).1.status ∧
    (update_payment_status (update_payment_status p r r).1 r r).2
        = (update_payment_status p r r).2 := by
  have e1 := update_payment_status_eq p r r href h1
  have e2 := update_payment_status_eq { p with status := get_payment_status r }
    r r href h1
  rw [e1]
  dsimp only
  rw [e2]
  exact ⟨rfl, rfl, rfl⟩

/-- C3 witness: the processing payment with the gateway reporting
`"success"` for every call. -/
theorem verify_idempotent_status_duplicate_enqueue_witness :
    (update_payment_status processingPayment successReport successReport).1.status
        = get_payment_status successReport ∧
    (update_payment_status
        (update_payment_status processingPayment successReport successReport).1
        successReport successReport).2
        = (update_payment_status processingPayment successReport successReport).2 :=
  ⟨(verify_idempotent_status_duplicate_enqueue processingPayment successReport
      (by decide) (by decide)).1,
   (verify_idempotent_status_duplicate_enqueue processingPayment successReport
      (by decide) (by decide)).2.2⟩

/-- C4 counterexample: a gateway call during verify fails (the second
one, inside `get_payment_status`) yet NO tagged error is returned
(`success = true`) and the status is NOT left as it was — it is
overwritten with `"failed"`. -/
theorem verify_second_failure_not_error_counterexample :
    processingPayment.status = "processing" ∧
    failedReport.success = false ∧
    (verify_payment_status processingPayment successReport failedReport).1.status
        = "failed" ∧
    (verify_payment_status processingPayment successReport failedReport).2.success
        = true := by
  decide

/-- C4 (amended): when the gateway call inside `initiate_payment` fails
the payment is set to `"failed"` and a tagged error is returned; when the
FIRST gateway call of `verify_payment_status` fails, a tagged error is
returned and the payment is left exactly as it was.  (A failure of the
second, status-lookup gateway call after a successful first call is not
surfaced as an error: verify then reports success and persists
`"failed"` — see C9.) -/
theorem gateway_failure_local_state (p q : Payment) (ir : ChapaInitResponse)
    (r1 r2 : ChapaVerifyResponse) (hir : ir.success = false)
    (hr1 : r1.success = false) :
    ((initiate_payment p ir).1.status = "failed" ∧
     (initiate_payment p ir).2.success = false) ∧
    ((verify_payment_status q r1 r2).1 = q ∧
     (verify_payment_status q r1 r2).2.success = false) := by
  constructor
  · unfold initiate_payment
    simp [hir]
  · unfold verify_payment_status
    by_cases h : refIsSet q.chapa_transaction_ref = false
    · simp [h]
    · simp [h, hr1]

/-- C4 witness: a failed initialize call on the processing payment and a
failed first verify call on the completed payment. -/
theorem gateway_failure_local_state_witness :
    ((initiate_payment processingPayment failedInit).1.status = "failed" ∧
     (initiate_payment processingPayment failedInit).2.success = false) ∧
    ((verify_payment_status completedPayment failedReport failedReport).1
        = completedPayment ∧
     (verify_payment_status completedPayment failedReport failedReport).2.success
        = false) :=
  gateway_failure_local_state processingPayment completedPayment failedInit
    failedReport failedReport (by decide) (by decide)

/-- C7: one run of `cleanup_expired_payments` at time `now` sets every
`"pending"` payment created strictly more than 24 hours before `now` to
`"failed"`, and leaves every `"pending"` payment at or inside the cutoff
untouched (rows are compared positionally: the sweep is a per-row
update). -/
theorem cleanup_expired_payments_sweep (now : Int) (payments : List Payment)
    (i : Nat) (p : Payment) (hp : payments[i]? = some p)
    (hpend : p.status = "pending") :
    (p.created_at < now - 24 →
      (cleanup_expired_payments now payments)[i]?
        = some { p with status := "failed" }) ∧
    (now - 24 ≤ p.created_at →
      (cleanup_expired_payments now payments)[i]? = some p) := by
  have hmap : (cleanup_expired_payments now payments)[i]?
      = some (expireUpdate (now - 24) p) := by
    unfold cleanup_expired_payments
    simp [List.getElem?_map, hp]
  constructor
  · intro hold
    rw [hmap]
    unfold expireUpdate
    rw [if_pos ⟨hpend, hold⟩]
  · intro hyoung
    rw [hmap]
    unfold expireUpdate
    rw [if_neg (fun hc => absurd hc.2 (not_lt.mpr hyoung))]

/-- C7 witness: a sweep at time 0 over a payment created 25 hours earlier
and one created 1 hour earlier. -/
theorem cleanup_expired_payments_sweep_witness :
    (cleanup_expired_payments 0 [stalePayment, freshPayment])[0]?
        = some { stalePayment with status := "failed" } ∧
    (cleanup_expired_payments 0 [stalePayment, freshPayment])[1]?
        = some freshPayment :=
  ⟨(cleanup_expired_payments_sweep 0 [stalePayment, freshPayment] 0 stalePayment
      (by decide) (by decide)).1 (by decide),
   (cleanup_expired_payments_sweep 0 [stalePayment, freshPayment] 1 freshPayment
      (by decide) (by decide)).2 (by decide)⟩

/-- C8 counterexample: `initiate_payment` on a payment whose
`chapa_transaction_ref` is already set (and whose status is `"completed"`,
not `"pending"`) succeeds and overwrites the stored reference with the
gateway's new one — no immutability, no pending-status precondition. -/
theorem initiate_overwrites_ref_counterexample :
    completedPayment.chapa_transaction_ref = some "chapa-1" ∧
    completedPayment.status = "completed" ∧
    (initiate_payment completedPayment okInit).1.chapa_transaction_ref
        = some "chapa-NEW" ∧
    (initiate_payment completedPayment okInit).2.success = true := by
  decide

/-- C8 (amended): `verify_payment_status` and a failed `initiate_payment`
never change `chapa_transaction_ref`, but a successful `initiate_payment`
always overwrites it with the reference the gateway returned — no
pending-status precondition is checked, so a later initiate on a payment
whose reference is already set replaces it. -/
theorem gateway_ref_mutation (p : Payment) (r1 r2 : ChapaVerifyResponse)
    (ir : ChapaInitResponse) :
    (verify_payment_status p r1 r2).1.chapa_transaction_ref
        = p.chapa_transaction_ref ∧
    (ir.success = false →
      (initiate_payment p ir).1.chapa_transaction_ref
        = p.chapa_transaction_ref) ∧
    (ir.success = true →
      (initiate_payment p ir).1.chapa_transaction_ref = ir.transaction_ref) := by
  refine ⟨verify_ref_eq p r1 r2, ?_, ?_⟩ <;> intro h <;>
    unfold initiate_payment <;> simp [h]

/-- C8 witness: the completed payment of the counterexample. -/
theorem gateway_ref_mutation_witness :
    (verify_payment_status completedPayment pendingReport pendingReport).1.chapa_transaction_ref
        = completedPayment.chapa_transaction_ref ∧
    (initiate_payment completedPayment okInit).1.chapa_transaction_ref
        = okInit.transaction_ref :=
  ⟨(gateway_ref_mutation completedPayment pendingReport pendingReport okInit).1,
   (gateway_ref_mutation completedPayment pendingReport pendingReport okInit).2.2
      (by decide)⟩
